import Mathlib

/-!
Verification of the Omnichannel Delivery Core specification against its
implementation.  Python strings are modelled as lists of characters,
timestamps as natural numbers, and UUIDs as natural numbers.  Each
definition is a direct translation of the corresponding Python function
named in its doc comment.
-/

set_option linter.unusedVariables false

/-- Python `str` is modelled as a list of characters. -/
abbrev Str := List Char

/-- Convert a Lean string literal to the `Str` model. -/
def strOf (s : String) : Str := s.data

/-- Python `str.isspace` on one ASCII character (the set matched by `\s`
and used by `str.strip()` / `str.split()`). -/
def pyIsSpace (c : Char) : Bool :=
  c == ' ' || c == '\t' || c == '\n' || c == '\r' || c == '\x0b' || c == '\x0c'

/-- Python `str.strip()` with no argument: drop leading and trailing
whitespace. -/
def pyStrip (s : Str) : Str :=
  ((s.dropWhile pyIsSpace).reverse.dropWhile pyIsSpace).reverse

/-- Python `str.split()` with no argument: split on whitespace runs,
discarding empty pieces. -/
def pySplit (s : Str) : List Str :=
  (s.splitOnP pyIsSpace).filter (fun w => w ≠ [])

/-- Python `sep.join(pieces)`. -/
def pyJoin (sep : Str) (pieces : List Str) : Str :=
  match pieces with
  | [] => []
  | p :: rest => p ++ (rest.map (fun q => sep ++ q)).flatten

/-- Python `str.lower()` restricted to ASCII (all source patterns and
witness inputs are ASCII). -/
def pyLower (s : Str) : Str := s.map Char.toLower

/-- Python `str.startswith(p)`. -/
def pyStartsWith (p s : Str) : Bool := p.isPrefixOf s

namespace Api

/-- `MessageStatus` from `src/api/src/domain/entities/message.py`. -/
inductive MessageStatus where
  | draft
  | scheduled
  | processing
  | delivered
  | partially_delivered
  | failed
deriving DecidableEq, Repr

/-- The `.value` string of a `MessageStatus`. -/
def MessageStatus.value : MessageStatus → Str
  | .draft => strOf "draft"
  | .scheduled => strOf "scheduled"
  | .processing => strOf "processing"
  | .delivered => strOf "delivered"
  | .partially_delivered => strOf "partially_delivered"
  | .failed => strOf "failed"

/-- `ChannelType` from `src/api/src/domain/value_objects/channel_type.py`. -/
inductive ChannelType where
  | whatsapp
  | facebook
  | instagram
  | linkedin
  | email
  | sms
deriving DecidableEq, Repr

/-- The `.value` string of a `ChannelType`. -/
def ChannelType.value : ChannelType → Str
  | .whatsapp => strOf "whatsapp"
  | .facebook => strOf "facebook"
  | .instagram => strOf "instagram"
  | .linkedin => strOf "linkedin"
  | .email => strOf "email"
  | .sms => strOf "sms"

/-- `MessageContent` from `src/api/src/domain/value_objects/content.py`
(the stored fields of the frozen dataclass). -/
structure MessageContent where
  text : Str
  media_url : Option Str
deriving DecidableEq, Repr

/-- Truthiness of the optional `media_url` (Python `if self.media_url`):
present and non-empty. -/
def mediaTruthy : Option Str → Bool
  | none => false
  | some s => s ≠ []

/-- `MessageContent.__post_init__` as a smart constructor: replays the
three validation checks in source order and returns the constructed value
when none raises. -/
def MessageContent.validate (text : Str) (media_url : Option Str) :
    Except Str MessageContent :=
  if text = [] || (pyStrip text).length = 0 then
    .error (strOf "Message text cannot be empty")
  else if text.length > 4096 then
    .error (strOf "Message text cannot exceed 4096 characters")
  else if mediaTruthy media_url &&
      !(pyStartsWith (strOf "https://") (media_url.getD []) ||
        pyStartsWith (strOf "s3://") (media_url.getD [])) then
    .error (strOf "Media URL must be HTTPS or S3")
  else
    .ok ⟨text, media_url⟩

/-- `ChannelDelivery` from `src/api/src/domain/entities/message.py`:
per-channel delivery tracking (its `status` field reuses `MessageStatus`
and defaults to `scheduled`). -/
structure ChannelDelivery where
  channel : ChannelType
  status : MessageStatus := .scheduled
  delivered_at : Option Nat := none
  error : Option Str := none
deriving DecidableEq, Repr

/-- `Message` aggregate root from `src/api/src/domain/entities/message.py`. -/
structure Message where
  id : Nat
  content : MessageContent
  channels : List ChannelType
  scheduled_at : Nat
  status : MessageStatus
  recipient_id : Str
  user_id : Str
  created_at : Nat
  updated_at : Nat
  deliveries : List ChannelDelivery
deriving DecidableEq, Repr

/-- The `for … if … break` loop shared by `mark_channel_delivered` and
`mark_channel_failed`: update the first delivery whose channel matches,
leave the rest untouched. -/
def markFirst (ds : List ChannelDelivery) (ch : ChannelType)
    (f : ChannelDelivery → ChannelDelivery) : List ChannelDelivery :=
  match ds with
  | [] => []
  | d :: rest => if d.channel = ch then f d :: rest else d :: markFirst rest ch f

/-- `Message._update_overall_status`; `datetime.now(UTC)` is passed in as
`now`. -/
def Message.update_overall_status (m : Message) (now : Nat) : Message :=
  let statuses := m.deliveries.map (·.status)
  let st :=
    if statuses.all (fun s => s == MessageStatus.delivered) then
      MessageStatus.delivered
    else if statuses.all (fun s => s == MessageStatus.failed) then
      MessageStatus.failed
    else if statuses.any (fun s => s == MessageStatus.delivered) then
      MessageStatus.partially_delivered
    else
      m.status
  { m with status := st, updated_at := now }

/-- `Message.mark_channel_delivered`. -/
def Message.mark_channel_delivered (m : Message) (ch : ChannelType)
    (now : Nat) : Message :=
  let m' := { m with
    deliveries := markFirst m.deliveries ch
      (fun d => { d with status := .delivered, delivered_at := some now }) }
  m'.update_overall_status now

/-- `Message.mark_channel_failed`. -/
def Message.mark_channel_failed (m : Message) (ch : ChannelType)
    (err : Str) (now : Nat) : Message :=
  let m' := { m with
    deliveries := markFirst m.deliveries ch
      (fun d => { d with status := .failed, error := some err }) }
  m'.update_overall_status now

/-- One row of the `channel_deliveries` table as touched by
`PostgresMessageRepository.save`. -/
structure DeliveryRow where
  channel : Str
  status : Str
  delivered_at : Option Nat
  error : Option Str
deriving DecidableEq, Repr

/-- One row of the `messages` table as touched by
`PostgresMessageRepository.save`. -/
structure MessageRow where
  id : Nat
  content_text : Str
  content_media_url : Option Str
  scheduled_at : Nat
  status : Str
  updated_at : Nat
  deliveries : List DeliveryRow
deriving DecidableEq, Repr

/-- The delivery-update loop of `PostgresMessageRepository.save`:
`for i, delivery in enumerate(message.deliveries): if i < len(existing)`
overwrite `status`, `delivered_at` and `error` of the existing row. -/
def copyDeliveries : List DeliveryRow → List ChannelDelivery → List DeliveryRow
  | old, [] => old
  | [], _ => []
  | o :: os, d :: ds =>
      { o with status := d.status.value, delivered_at := d.delivered_at,
               error := d.error } :: copyDeliveries os ds

/-- `PostgresMessageRepository.save` on a message whose row already
exists (the UPDATE branch). -/
def PostgresMessageRepository.saveExisting (existing : MessageRow)
    (m : Message) : MessageRow :=
  { existing with
    content_text := m.content.text
    content_media_url := m.content.media_url
    scheduled_at := m.scheduled_at
    status := m.status.value
    updated_at := m.updated_at
    deliveries := copyDeliveries existing.deliveries m.deliveries }

/-- `ChannelDeliveryDTO` from `src/api/src/application/dtos`. -/
structure ChannelDeliveryDTO where
  channel : Str
  status : Str
  delivered_at : Option Nat
  error : Option Str
deriving DecidableEq, Repr

/-- `MessageResponseDTO` from `src/api/src/application/dtos`. -/
structure MessageResponseDTO where
  id : Nat
  content : Str
  media_url : Option Str
  channels : List Str
  scheduled_at : Nat
  status : Str
  recipient_id : Str
  created_at : Nat
  updated_at : Nat
  deliveries : List ChannelDeliveryDTO
deriving DecidableEq, Repr

/-- The message repository state seen through `get_by_id`, modelled as the
list of stored messages. -/
def storeGet (store : List Message) (message_id : Nat) : Option Message :=
  store.find? (fun m => m.id == message_id)

/-- `GetMessageService.execute` from
`src/api/src/application/services/get_message_service.py`.  Note: the
service takes only the message id — it has no caller-identity parameter
and performs no owner check (its inbound port `GetMessageUseCase.execute`
declares an additional `user_id: str` parameter "scoped to the
authenticated user", which this implementation ignores; the HTTP handler
`get_message` in `src/api/src/presentation/api/v1/messages.py` likewise
passes no identity). -/
def GetMessageService.execute (store : List Message) (message_id : Nat) :
    Option MessageResponseDTO :=
  match storeGet store message_id with
  | none => none
  | some message =>
    some {
      id := message.id
      content := message.content.text
      media_url := message.content.media_url
      channels := message.channels.map (·.value)
      scheduled_at := message.scheduled_at
      status := message.status.value
      recipient_id := message.recipient_id
      created_at := message.created_at
      updated_at := message.updated_at
      deliveries := message.deliveries.map (fun d =>
        { channel := d.channel.value
          status := d.status.value
          delivered_at := d.delivered_at
          error := d.error }) }

end Api

namespace Worker

/-- `ChannelType` from `src/worker/src/domain/ports/channel_gateway.py`
(the worker keeps its own copy of the enumeration). -/
inductive ChannelType where
  | whatsapp
  | facebook
  | instagram
  | linkedin
  | email
  | sms
deriving DecidableEq, Repr

/-- The `.value` string of a worker `ChannelType`. -/
def ChannelType.value : ChannelType → Str
  | .whatsapp => strOf "whatsapp"
  | .facebook => strOf "facebook"
  | .instagram => strOf "instagram"
  | .linkedin => strOf "linkedin"
  | .email => strOf "email"
  | .sms => strOf "sms"

/-- `ChannelType(value)`: the enum constructor lookup, raising `ValueError`
(here `none`) for unknown values. -/
def ChannelType.fromStr (s : Str) : Option ChannelType :=
  if s = strOf "whatsapp" then some .whatsapp
  else if s = strOf "facebook" then some .facebook
  else if s = strOf "instagram" then some .instagram
  else if s = strOf "linkedin" then some .linkedin
  else if s = strOf "email" then some .email
  else if s = strOf "sms" then some .sms
  else none

/-- `ContentRisk` from `src/worker/src/domain/ports/content_filter.py`. -/
inductive ContentRisk where
  | safe
  | low
  | medium
  | high
  | blocked
deriving DecidableEq, Repr

/-- The `.value` string of a `ContentRisk`. -/
def ContentRisk.value : ContentRisk → Str
  | .safe => strOf "safe"
  | .low => strOf "low"
  | .medium => strOf "medium"
  | .high => strOf "high"
  | .blocked => strOf "blocked"

/-- `RISK_ORDER` from `content_filter_impl.py`. -/
def riskOrder : ContentRisk → Nat
  | .safe => 0
  | .low => 1
  | .medium => 2
  | .high => 3
  | .blocked => 4

/-- `_max_risk` from `content_filter_impl.py`. -/
def maxRisk (a b : ContentRisk) : ContentRisk :=
  if riskOrder a ≥ riskOrder b then a else b

/-- `ViolationType` from `src/worker/src/domain/ports/content_filter.py`. -/
inductive ViolationType where
  | prompt_injection
  | malicious_url
  | profanity
  | spam
  | pii_exposure
  | brand_safety
  | off_topic
deriving DecidableEq, Repr

/-- The `.value` string of a `ViolationType`. -/
def ViolationType.value : ViolationType → Str
  | .prompt_injection => strOf "prompt_injection"
  | .malicious_url => strOf "malicious_url"
  | .profanity => strOf "profanity"
  | .spam => strOf "spam"
  | .pii_exposure => strOf "pii_exposure"
  | .brand_safety => strOf "brand_safety"
  | .off_topic => strOf "off_topic"

/-- `FilterResult` from `src/worker/src/domain/ports/content_filter.py`. -/
structure FilterResult where
  is_safe : Bool
  risk_level : ContentRisk
  violations : List ViolationType
  sanitized_content : Option Str
  reason : Option Str
deriving DecidableEq, Repr

/-- Abstract syntax of the regular expressions appearing in
`content_filter_impl.py`: literal text, bounded repetition of a character
class (covering `\s+`, `\s*`, `\d{3}`, `[-.]?`, `[...]+`, `{2,}`),
an optional piece, alternation and concatenation. -/
inductive Pat where
  | lit : Str → Pat
  | reps : List Char → Nat → Option Nat → Pat
  | opt : Pat → Pat
  | alt : Pat → Pat → Pat
  | seq : Pat → Pat → Pat

/-- All ways `p` can match a prefix of `l`: each result is the last
character consumed (if any) paired with the remaining input.  Listing
every split gives full backtracking, so a pattern matches somewhere iff
the compiled Python regex does. -/
def matchEndsL : Pat → Str → List (Option Char × Str)
  | .lit cs, l =>
      if cs.isPrefixOf l then [(cs.getLast?, l.drop cs.length)] else []
  | .reps cs lo hi, l =>
      let k := (l.takeWhile (fun c => cs.contains c)).length
      let top := match hi with | none => k | some h => min h k
      if lo ≤ top then
        (List.range (top - lo + 1)).map (fun i =>
          ((l.take (lo + i)).getLast?, l.drop (lo + i)))
      else []
  | .opt p, l => (none, l) :: matchEndsL p l
  | .alt p q, l => matchEndsL p l ++ matchEndsL q l
  | .seq p q, l =>
      (matchEndsL p l).flatMap (fun r =>
        (matchEndsL q r.2).map (fun r2 =>
          (if r2.1.isSome then r2.1 else r.1, r2.2)))

/-- `pattern.search(text)` for a pattern without word boundaries: does `p`
match starting at some position of `l`? -/
def patSearch (p : Pat) : Str → Bool
  | [] => !(matchEndsL p []).isEmpty
  | c :: rest => !(matchEndsL p (c :: rest)).isEmpty || patSearch p rest

/-- Python `\w` membership (ASCII). -/
def isWordChar (c : Char) : Bool := c.isAlpha || c.isDigit || c == '_'

/-- Whether the next character of the input is a word character (end of
input counts as non-word). -/
def headIsWord : Str → Bool
  | [] => false
  | c :: _ => isWordChar c

/-- Whether the optional character is a word character. -/
def optIsWord : Option Char → Bool
  | none => false
  | some c => isWordChar c

/-- `pattern.search(text)` for the PII patterns, which are all of the
form `\b core \b`: a match at some position must have a word boundary
before its first character (`prev` is the character just before the
current position) and after its last. -/
def searchBd (p : Pat) : Option Char → Str → Bool
  | prev, l =>
    let here := (optIsWord prev != headIsWord l) &&
      (matchEndsL p l).any (fun r => optIsWord r.1 != headIsWord r.2)
    match l with
    | [] => here
    | c :: rest => here || searchBd p (some c) rest

/-- Shorthand for a literal pattern. -/
def plit (s : String) : Pat := .lit s.data

/-- Left fold of alternation, for `(w1|w2|…)` groups. -/
def altList (p : Pat) (ps : List Pat) : Pat := ps.foldl Pat.alt p

/-- Left fold of concatenation. -/
def seqList (p : Pat) (ps : List Pat) : Pat := ps.foldl Pat.seq p

/-- The characters matched by `\s`. -/
def wsChars : List Char := [' ', '\t', '\n', '\r', '\x0b', '\x0c']

/-- `\s+`. -/
def ws1 : Pat := .reps wsChars 1 none

/-- `\s*`. -/
def ws0 : Pat := .reps wsChars 0 none

/-- The inclusive character range `[a-b]`. -/
def charRange (a b : Char) : List Char :=
  (List.range (b.toNat - a.toNat + 1)).map (fun i => Char.ofNat (a.toNat + i))

/-- `\d`. -/
def digitChars : List Char := charRange '0' '9'

/-- `PROMPT_INJECTION_PATTERNS` from `content_filter_impl.py`, compiled
with `re.IGNORECASE` and therefore written lowercase here (they are
searched on the lowercased input). -/
def promptInjectionPatterns : List Pat :=
  [ seqList (plit "ignore") [ws1,
      altList (plit "previous") [plit "all", plit "above"], ws1,
      altList (.seq (plit "instruction") (.opt (plit "s")))
        [.seq (plit "prompt") (.opt (plit "s"))]],
    seqList (plit "disregard") [ws1,
      altList (plit "previous") [plit "all", plit "above"]],
    seqList (plit "forget") [ws1,
      altList (plit "everything") [plit "all", plit "previous"]],
    seqList (plit "new") [ws1, plit "instruction", .opt (plit "s"), plit ":"],
    seqList (plit "system") [ws0, plit ":", ws0],
    seqList (plit "<") [ws0, plit "system", ws0, plit ">"],
    seqList (plit "[") [ws0, plit "system", ws0, plit "]"],
    seqList (plit "you") [ws1, plit "are", ws1, plit "now", ws1],
    seqList (plit "act") [ws1, plit "as", ws1,
      altList (plit "if") [plit "a"], ws1],
    seqList (plit "pretend") [ws1,
      altList (seqList (plit "to") [ws1, plit "be"])
        [seqList (plit "you") [ws1, plit "are"]]],
    seqList (plit "roleplay") [ws1, plit "as"],
    plit "jailbreak",
    seqList (plit "bypass") [ws1,
      altList (plit "filter") [plit "safety", plit "restriction"]],
    seqList (plit "override") [ws1,
      altList (plit "instruction") [plit "safety", plit "filter"]],
    seqList (plit "execute") [ws1,
      altList (plit "command") [plit "code", plit "script"]],
    seqList (plit "run") [ws1,
      altList (plit "command") [plit "code", plit "script"]],
    seqList (plit "eval") [ws0, plit "("],
    seqList (plit "exec") [ws0, plit "("] ]

/-- `MALICIOUS_URL_PATTERNS` from `content_filter_impl.py`: each regex is
a dot-escaped literal searched case-insensitively, i.e. substring
containment in the lowercased URL. -/
def maliciousUrlPatterns : List Str :=
  [ strOf "bit.ly", strOf "tinyurl.com", strOf "t.co", strOf "goo.gl",
    strOf "ow.ly", strOf "is.gd", strOf "buff.ly", strOf "adf.ly",
    strOf "j.mp", strOf "dlvr.it" ]

/-- `ALLOWED_URL_DOMAINS` from `content_filter_impl.py`. -/
def allowedUrlDomains : List Str :=
  [ strOf "aws.amazon.com", strOf "amazon.com", strOf "linkedin.com",
    strOf "github.com", strOf "twitter.com", strOf "x.com",
    strOf "facebook.com", strOf "instagram.com", strOf "youtube.com",
    strOf "credly.com", strOf "certmetrics.com" ]

/-- `OFF_TOPIC_PATTERNS` from `content_filter_impl.py` (IGNORECASE,
written lowercase). -/
def offTopicPatterns : List Pat :=
  [ seqList (altList (plit "buy") [plit "sell", plit "purchase"])
      [ws1, altList (plit "now") [plit "today", plit "cheap"]],
    seqList (altList (plit "click") [plit "visit"])
      [ws1, altList (plit "here") [plit "now", plit "link"]],
    seqList (altList (plit "free") [plit "discount", plit "offer"])
      [ws1, altList (plit "money") [plit "gift", plit "prize"]],
    altList (plit "casino") [plit "gambling", plit "lottery"],
    seqList (altList (plit "crypto") [plit "bitcoin", plit "nft"])
      [ws1, altList (plit "invest") [plit "buy", plit "sell"]] ]

/-- `PII_PATTERNS` from `content_filter_impl.py`; all four are of the
form `\b core \b` and are searched with `searchBd`.  The email class
`[A-Z|a-z]{2,}` includes the literal bar character, as in the source. -/
def piiPatterns : List Pat :=
  [ seqList (.reps digitChars 3 (some 3))
      [.reps ['-', '.'] 0 (some 1), .reps digitChars 2 (some 2),
       .reps ['-', '.'] 0 (some 1), .reps digitChars 4 (some 4)],
    .reps digitChars 16 (some 16),
    seqList (.reps (charRange 'A' 'Z' ++ charRange 'a' 'z' ++ digitChars ++
        ['.', '_', '%', '+', '-']) 1 none)
      [plit "@",
       .reps (charRange 'A' 'Z' ++ charRange 'a' 'z' ++ digitChars ++
        ['.', '-']) 1 none,
       plit ".",
       .reps (charRange 'A' 'Z' ++ ['|'] ++ charRange 'a' 'z') 2 none],
    seqList (.reps digitChars 3 (some 3))
      [.reps ['-', '.'] 0 (some 1), .reps digitChars 3 (some 3),
       .reps ['-', '.'] 0 (some 1), .reps digitChars 4 (some 4)] ]

/-- `re.findall(r"https?://[^\s]+", content)`: at the start of each URL
scheme occurrence, the match greedily extends to the next whitespace, and
scanning resumes after it.  (In the recursive call the head character is
already known to be `h`, hence non-space, so consing it onto the
`takeWhile` of the tail equals the `takeWhile` of the whole.)  Written
with structural fuel so that it reduces in the kernel. -/
def findUrlsAux : Nat → Str → List Str
  | 0, _ => []
  | _, [] => []
  | fuel + 1, c :: rest =>
    if pyStartsWith (strOf "https://") (c :: rest) ||
       pyStartsWith (strOf "http://") (c :: rest) then
      let url := c :: rest.takeWhile (fun ch => !pyIsSpace ch)
      url :: findUrlsAux fuel (rest.drop (url.length - 1))
    else
      findUrlsAux fuel rest

/-- The scan itself; the fuel `l.length` dominates the number of steps,
since every step consumes at least one character. -/
def findUrls (l : Str) : List Str := findUrlsAux l.length l

/-- Substring containment: does `needle` occur contiguously in the
second argument? -/
def isSubstrOf (needle : Str) : Str → Bool
  | [] => needle.isPrefixOf []
  | c :: rest => needle.isPrefixOf (c :: rest) || isSubstrOf needle rest

/-- The shortener check of `_is_malicious_url`: some pattern of
`MALICIOUS_URL_PATTERNS` matches the URL (case-insensitively). -/
def shortenerMatch (url : Str) : Bool :=
  maliciousUrlPatterns.any (fun p => isSubstrOf p (pyLower url))

/-- `urlparse(url).netloc` for the `http(s)` URLs this filter receives:
the text after the scheme separator, up to the first `/`, `?` or `#`. -/
def urlNetloc (url : Str) : Str :=
  let after :=
    if pyStartsWith (strOf "https://") url then url.drop 8
    else if pyStartsWith (strOf "http://") url then url.drop 7
    else url
  after.takeWhile (fun c => c != '/' && c != '?' && c != '#')

/-- The `domain` computed inside `_is_malicious_url`: lowercased netloc
with a leading `www.` removed. -/
def urlDomain (url : Str) : Str :=
  let domain := pyLower (urlNetloc url)
  if pyStartsWith (strOf "www.") domain then domain.drop 4 else domain

/-- Python `str.endswith(p)`. -/
def pyEndsWith (p s : Str) : Bool := p.isSuffixOf s

/-- The allow-list check of `_is_malicious_url`. -/
def isAllowedDomain (domain : Str) : Bool :=
  allowedUrlDomains.any (fun a =>
    domain == a || pyEndsWith (strOf "." ++ a) domain)

/-- `ContentFilterImpl._is_malicious_url`.  Note both the allowed-domain
branch and the unknown-domain branch return `False` ("flag as suspicious
but don't block"), so the result reduces to the shortener check; the
`except` branch (unparsable URL) cannot trigger for the `http(s)://`
strings produced by `findUrls`. -/
def is_malicious_url (url : Str) : Bool :=
  if shortenerMatch url then true
  else if isAllowedDomain (urlDomain url) then false
  else false

/-- `html.escape` (default `quote=True`) on one character; the apostrophe
is written by code point to keep the file ASCII-clean. -/
def htmlEscapeChar (c : Char) : Str :=
  if c == '&' then strOf "&amp;"
  else if c == '<' then strOf "&lt;"
  else if c == '>' then strOf "&gt;"
  else if c == '"' then strOf "&quot;"
  else if c.toNat = 39 then strOf "&#x27;"
  else [c]

/-- `html.escape(content)`. -/
def htmlEscape (s : Str) : Str := (s.map htmlEscapeChar).flatten

/-- `ContentFilterImpl._sanitize_input`: HTML-escape, drop null bytes,
normalize whitespace runs to single spaces. -/
def sanitize_input (content : Str) : Str :=
  let escaped := htmlEscape content
  let noNull := escaped.filter (fun c => c.toNat ≠ 0)
  pyJoin (strOf " ") (pySplit noNull)

/-- `re.sub(r"<[^>]+>", "", content)`: remove every maximal `<…>` tag
(at a `<`, the match runs to the first later `>` provided at least one
character lies between; if no `>` follows, the `<` is kept). -/
def removeTagsAux : Nat → Str → Str
  | 0, l => l
  | _, [] => []
  | fuel + 1, c :: rest =>
    if c == '<' then
      let body := rest.takeWhile (fun ch => ch != '>')
      if body.length ≥ 1 && body.length < rest.length then
        removeTagsAux fuel (rest.drop (body.length + 1))
      else c :: removeTagsAux fuel rest
    else c :: removeTagsAux fuel rest

/-- The tag scan itself (fuel dominates the step count). -/
def removeTags (l : Str) : Str := removeTagsAux l.length l

/-- `ContentFilterImpl._sanitize_output`: strip HTML tags, drop null
bytes, normalize whitespace per line keeping line breaks, strip. -/
def sanitize_output (content : Str) : Str :=
  let noTags := removeTags content
  let noNull := noTags.filter (fun c => c.toNat ≠ 0)
  let lines := (noNull.splitOn '\n').map (fun ln => pyJoin (strOf " ") (pySplit ln))
  pyStrip (pyJoin (strOf "\n") lines)

/-- The `is_safe` computation shared by `filter_input` and
`filter_output`: in strict mode only `Safe` and `Low` are safe, otherwise
everything but `Blocked` is. -/
def isSafeFor (strict_mode : Bool) (risk : ContentRisk) : Bool :=
  if strict_mode then risk == .safe || risk == .low else risk != .blocked

/-- The `reason` field: `f"Violations: {[v.value for v in violations]}"`
when violations exist (Python renders the list with quoted entries; the
quoting is elided here). -/
def mkReason (violations : List ViolationType) : Option Str :=
  if violations = [] then none
  else some (strOf "Violations: [" ++
    pyJoin (strOf ", ") (violations.map ViolationType.value) ++ strOf "]")

/-- The risk/violation accumulation of `ContentFilterImpl.filter_input`:
prompt-injection scan (first match blocks and stops), then the URL loop
unless blocked, then the off-topic scan unless blocked or high. -/
def filterInputCore (content : Str) : ContentRisk × List ViolationType :=
  let lower := pyLower content
  let inj := promptInjectionPatterns.any (fun p => patSearch p lower)
  let start : ContentRisk × List ViolationType :=
    if inj then (.blocked, [.prompt_injection]) else (.safe, [])
  let afterUrls :=
    if start.1 != ContentRisk.blocked then
      (findUrls content).foldl
        (fun rv url =>
          if is_malicious_url url then
            (maxRisk rv.1 .high, rv.2 ++ [.malicious_url])
          else rv)
        start
    else start
  if afterUrls.1 != ContentRisk.blocked && afterUrls.1 != ContentRisk.high then
    if offTopicPatterns.any (fun p => patSearch p lower) then
      (maxRisk afterUrls.1 .medium, afterUrls.2 ++ [.off_topic])
    else afterUrls
  else afterUrls

/-- `ContentFilterImpl.filter_input`. -/
def filter_input (strict_mode : Bool) (content : Str) : FilterResult :=
  let rv := filterInputCore content
  let sanitized := sanitize_input content
  let is_safe := isSafeFor strict_mode rv.1
  { is_safe
    risk_level := rv.1
    violations := rv.2
    sanitized_content := if is_safe then some sanitized else none
    reason := mkReason rv.2 }

/-- The risk/violation accumulation of `ContentFilterImpl.filter_output`:
PII loop, then URL loop, then prompt-injection scan (a match sets
`Blocked` outright and stops). -/
def filterOutputCore (content : Str) : ContentRisk × List ViolationType :=
  let afterPii := piiPatterns.foldl
    (fun rv p =>
      if searchBd p none content then
        (maxRisk rv.1 .high, rv.2 ++ [.pii_exposure])
      else rv)
    ((.safe : ContentRisk), ([] : List ViolationType))
  let afterUrls := (findUrls content).foldl
    (fun rv url =>
      if is_malicious_url url then
        (maxRisk rv.1 .high, rv.2 ++ [.malicious_url])
      else rv)
    afterPii
  if promptInjectionPatterns.any (fun p => patSearch p (pyLower content)) then
    (.blocked, afterUrls.2 ++ [.prompt_injection])
  else afterUrls

/-- `ContentFilterImpl.filter_output`. -/
def filter_output (strict_mode : Bool) (content : Str) : FilterResult :=
  let rv := filterOutputCore content
  let sanitized := sanitize_output content
  let is_safe := isSafeFor strict_mode rv.1
  { is_safe
    risk_level := rv.1
    violations := rv.2
    sanitized_content := if is_safe then some sanitized else none
    reason := mkReason rv.2 }

/-- `PublishRequest` from
`src/worker/src/domain/ports/social_media_publisher.py`; `metadata`
(a Python dict) is modelled as an association list. -/
structure PublishRequest where
  content : Str
  channels : List ChannelType
  media_url : Option Str := none
  metadata : List (Str × Str) := []
deriving DecidableEq, Repr

/-- One per-channel result dict: the union of the keys the two publishers
put into `channel_results` values. -/
structure ChannelOutcome where
  success : Bool := false
  external_id : Option Str := none
  error : Option Str := none
  call_count : Nat := 0
deriving DecidableEq, Repr

/-- The `metrics` dict of a `PublishResult`: the keys written by
`AgentPublisher.publish` (agent-SDK timing metrics are not modelled). -/
structure PublishMetrics where
  blocked : Bool := false
  risk_level : Option Str := none
  input_filtered : Bool := false
  output_filtered : Bool := false
deriving DecidableEq, Repr

/-- `PublishResult` from
`src/worker/src/domain/ports/social_media_publisher.py`. -/
structure PublishResult where
  channel_results : List (ChannelType × ChannelOutcome)
  summary : Option Str := none
  metrics : Option PublishMetrics := none
deriving DecidableEq, Repr

/-- The observable behaviour of one run of the Strands agent
(`self._agent(user_prompt)` in `AgentPublisher.publish`): the extracted
final text, the per-channel tool statistics parsed from
`result.metrics.tool_usage`, and the `ChannelGateway.send` calls the
agent's tools performed.  The agent is external nondeterministic I/O, so
`AgentPublisher.publish` is parameterized over it. -/
structure AgentRun where
  summary : Str := []
  tool_usage : List (ChannelType × ChannelOutcome) := []
  gateway_calls : List ChannelType := []

/-- Python `x or y` for an optional string `x` (both `None` and the empty
string fall through to `y`). -/
def pyOrStr (x : Option Str) (y : Str) : Str :=
  match x with
  | none => y
  | some s => if s = [] then y else s

/-- The user prompt assembled in `AgentPublisher.publish`. -/
def buildPrompt (request : PublishRequest) (safe_content : Str) : Str :=
  let channel_names := request.channels.map ChannelType.value
  let parts :=
    [strOf "Please post the following announcement to these channels: " ++
       pyJoin (strOf ", ") channel_names,
     strOf "\nContent: " ++ safe_content] ++
    (match request.media_url with
     | some u =>
       if u ≠ [] then [strOf "Media URL: " ++ u]
       else [strOf "No image provided (skip Instagram if no image)"]
     | none => [strOf "No image provided (skip Instagram if no image)"]) ++
    (if request.metadata ≠ [] then
      (match (request.metadata.find? (fun p => p.1 == strOf "certification_type")) with
       | some p => [strOf "Certification: " ++ p.2]
       | none => []) ++
      (match (request.metadata.find? (fun p => p.1 == strOf "member_name")) with
       | some p => [strOf "Member: " ++ p.2]
       | none => [])
     else []) ++
    [strOf "\nPost to each requested channel, adapting the content appropriately."]
  pyJoin (strOf "\n") parts

/-- `AgentPublisher.publish` from
`src/worker/src/infrastructure/adapters/agent_publisher.py`, returning
the `PublishResult` together with the list of `ChannelGateway.send`
calls performed.  When the input filter is not safe the function returns
before the agent (and hence before any gateway) is invoked. -/
def AgentPublisher.publish (strict_mode : Bool) (agent : Str → AgentRun)
    (request : PublishRequest) : PublishResult × List ChannelType :=
  let input_filter_result := filter_input strict_mode request.content
  if !input_filter_result.is_safe then
    ({ channel_results := []
       summary := some (strOf "Content blocked: " ++
         (input_filter_result.reason.getD (strOf "None")))
       metrics := some { blocked := true
                         risk_level := some input_filter_result.risk_level.value } },
     [])
  else
    let safe_content := pyOrStr input_filter_result.sanitized_content request.content
    let run := agent (buildPrompt request safe_content)
    let summary0 := run.summary
    let summary1 :=
      if summary0 ≠ [] then
        let ofr := filter_output strict_mode summary0
        if !ofr.is_safe then
          strOf "Content generation completed but output was filtered for safety."
        else if ofr.risk_level != ContentRisk.safe then
          pyOrStr ofr.sanitized_content summary0
        else summary0
      else summary0
    ({ channel_results := run.tool_usage
       summary := some summary1
       metrics := some { input_filtered := true, output_filtered := true } },
     run.gateway_calls)

/-- `MessageDeliveryService.deliver` from
`src/worker/src/application/services/message_delivery_service.py`,
parameterized over the injected `SocialMediaPublisher`.  Returns the
`PublishResult`, the gateway calls performed, and how many times the
publisher was invoked.  Channel names that fail `ChannelType(channel.lower())`
are skipped (`continue`); an all-invalid list returns the
"No valid channels" result without calling the publisher. -/
def MessageDeliveryService.deliver
    (publisher : PublishRequest → PublishResult × List ChannelType)
    (content : Str) (channels : List Str) (media_url : Option Str)
    (metadata : List (Str × Str)) :
    PublishResult × List ChannelType × Nat :=
  let channel_types := channels.filterMap (fun ch => ChannelType.fromStr (pyLower ch))
  if channel_types = [] then
    ({ channel_results := [], summary := some (strOf "No valid channels"),
       metrics := none }, [], 0)
  else
    let res := publisher { content := content, channels := channel_types,
                           media_url := media_url, metadata := metadata }
    (res.1, res.2, 1)

/-- Strict lexicographic comparison of strings by code point (the order
used by Python `sorted` on `str`). -/
def strLt : Str → Str → Bool
  | [], [] => false
  | [], _ :: _ => true
  | _ :: _, [] => false
  | a :: as, b :: bs =>
    if a.toNat < b.toNat then true
    else if b.toNat < a.toNat then false
    else strLt as bs

/-- Stable insertion into an ascending list. -/
def insertSorted (x : Str) : List Str → List Str
  | [] => [x]
  | y :: ys => if strLt y x then y :: insertSorted x ys else x :: y :: ys

/-- Python `sorted(strings)`: ascending, stable. -/
def pySorted : List Str → List Str
  | [] => []
  | x :: xs => insertSorted x (pySorted xs)

/-- `InMemoryIdempotencyService.generate_key`: the SHA-256 hex digest of
`f"{message_id}:{','.join(sorted(channels))}"`.  The digest is modelled
by its preimage: every claim about it depends only on the key being a
deterministic function of `(message_id, sorted channels)`. -/
def generate_key (message_id : Str) (channels : List Str) : Str :=
  message_id ++ strOf ":" ++ pyJoin (strOf ",") (pySorted channels)

/-- `IdempotencyRecord` from `src/worker/src/domain/ports/idempotency.py`;
`result` holds the `{"message_id", "channels"}` payload passed to
`mark_completed`. -/
structure IdempotencyRecord where
  key : Str
  status : Str
  created_at : Nat
  completed_at : Option Nat
  result : Option (Str × List Str)
  error : Option Str
deriving DecidableEq, Repr

/-- The two dictionaries of `InMemoryIdempotencyService`
(`_cache` and `_expires`), as association lists. -/
structure IdemState where
  cache : List (Str × IdempotencyRecord)
  expires : List (Str × Nat)
deriving DecidableEq, Repr

/-- Dict lookup. -/
def lookupA {β : Type} (l : List (Str × β)) (k : Str) : Option β :=
  (l.find? (fun p => p.1 == k)).map (·.2)

/-- Dict assignment: replace in place or append. -/
def setA {β : Type} : List (Str × β) → Str → β → List (Str × β)
  | [], k, v => [(k, v)]
  | (k0, v0) :: rest, k, v =>
    if k0 == k then (k, v) :: rest else (k0, v0) :: setA rest k v

/-- `InMemoryIdempotencyService._cleanup_expired`; `time.time()` is the
parameter `now`. -/
def cleanupExpired (now : Nat) (st : IdemState) : IdemState :=
  let expired := ((st.expires.filter (fun p => p.2 < now)).map (·.1))
  { cache := st.cache.filter (fun p => !(expired.any (fun k0 => k0 == p.1)))
    expires := st.expires.filter (fun p => !(p.2 < now)) }

/-- The lock-for-processing tail of `check_and_lock`: store a fresh
`processing` record and its expiry, return `None`. -/
def lockFor (now ttl : Nat) (st : IdemState) (key : Str) :
    Option IdempotencyRecord × IdemState :=
  (none,
   { cache := setA st.cache key
       { key := key, status := strOf "processing", created_at := now,
         completed_at := none, result := none, error := none }
     expires := setA st.expires key (now + ttl) })

/-- `InMemoryIdempotencyService.check_and_lock`: cleanup, then return an
existing `completed` record, or a `processing` record younger than 300
seconds; any other state (stale processing, failed, absent) acquires the
lock. -/
def check_and_lock (now ttl : Nat) (st : IdemState) (key : Str) :
    Option IdempotencyRecord × IdemState :=
  let st1 := cleanupExpired now st
  match lookupA st1.cache key with
  | some existing =>
    if existing.status = strOf "completed" then (some existing, st1)
    else if existing.status = strOf "processing" &&
        !(now - existing.created_at > 300) then (some existing, st1)
    else lockFor now ttl st1 key
  | none => lockFor now ttl st1 key

/-- `InMemoryIdempotencyService.mark_completed`. -/
def mark_completed (now : Nat) (st : IdemState) (key : Str)
    (result : Str × List Str) : IdemState :=
  match lookupA st.cache key with
  | none => st
  | some record =>
    let upd := { record with status := strOf "completed",
                             completed_at := some now,
                             result := some result, error := none }
    { st with cache := setA st.cache key upd }

/-- `InMemoryIdempotencyService.mark_failed`. -/
def mark_failed (now : Nat) (st : IdemState) (key : Str)
    (error : Str) : IdemState :=
  match lookupA st.cache key with
  | none => st
  | some record =>
    let upd := { record with status := strOf "failed",
                             completed_at := some now,
                             result := none, error := some error }
    { st with cache := setA st.cache key upd }

/-- One row of the worker's `messages` table as read and written by
`MessageProcessor`. -/
structure WMessageRow where
  id : Str
  content_text : Str
  content_media_url : Option Str
  recipient_id : Str
  metadata : List (Str × Str)
  status : Str
  updated_at : Nat
deriving DecidableEq, Repr

/-- One row of the worker's `channel_deliveries` table. -/
structure WDeliveryRow where
  message_id : Str
  channel : Str
  status : Str
  delivered_at : Option Nat
  external_id : Option Str
  error : Option Str
deriving DecidableEq, Repr

/-- The database as seen by the worker. -/
structure WStore where
  messages : List WMessageRow
  channel_deliveries : List WDeliveryRow
deriving DecidableEq, Repr

/-- `MessageProcessor._update_status`. -/
def updateStatus (st : WStore) (mid : Str) (status : Str) (now : Nat) : WStore :=
  { st with messages := st.messages.map (fun r =>
      if r.id == mid then { r with status := status, updated_at := now } else r) }

/-- `MessageProcessor._mark_channel_delivered`. -/
def markChannelDelivered (st : WStore) (mid channel : Str)
    (external_id : Option Str) (now : Nat) : WStore :=
  { st with channel_deliveries := st.channel_deliveries.map (fun r =>
      if r.message_id == mid && r.channel == channel then
        { r with status := strOf "delivered", delivered_at := some now,
                 external_id := external_id }
      else r) }

/-- `MessageProcessor._mark_channel_failed`. -/
def markChannelFailed (st : WStore) (mid channel : Str) (error : Str) : WStore :=
  { st with channel_deliveries := st.channel_deliveries.map (fun r =>
      if r.message_id == mid && r.channel == channel then
        { r with status := strOf "failed", error := some error }
      else r) }

/-- `MessageProcessor.process_scheduled_message`, parameterized over the
injected publisher; returns the store and the number of publisher
invocations.  When the message id is not found the method logs and
returns normally (it raises nothing), performing no store write and no
delivery.  The abstract publisher is total, so the model raises no
exception anywhere. -/
def process_scheduled_message (now : Nat)
    (publisher : PublishRequest → PublishResult × List ChannelType)
    (store : WStore) (mid : Str) (channels : List Str) : WStore × Nat :=
  match store.messages.find? (fun r => r.id == mid) with
  | none => (store, 0)
  | some row =>
    let store1 := updateStatus store mid (strOf "processing") now
    let dres := MessageDeliveryService.deliver publisher row.content_text
      channels row.content_media_url row.metadata
    let store2 := dres.1.channel_results.foldl (fun st pr =>
      if pr.2.success then
        markChannelDelivered st mid pr.1.value pr.2.external_id now
      else
        markChannelFailed st mid pr.1.value (pr.2.error.getD (strOf "Unknown error")))
      store1
    let success_count := (dres.1.channel_results.filter (fun pr => pr.2.success)).length
    let final :=
      if success_count = channels.length then strOf "delivered"
      else if success_count > 0 then strOf "partial"
      else strOf "failed"
    (updateStatus store2 mid final now, dres.2.2)

/-- `KinesisConsumer._handle_scheduled_message`: idempotency check, then
processing and `mark_completed`.  Returns the idempotency state, the
store, and the number of publisher invocations.  The model's processor
raises no exception, so the `except` branch (`mark_failed` and re-raise)
is not reachable here. -/
def handle_scheduled_message (now ttl : Nat)
    (publisher : PublishRequest → PublishResult × List ChannelType)
    (idem : IdemState) (store : WStore) (mid : Str) (channels : List Str) :
    IdemState × WStore × Nat :=
  let key := generate_key mid channels
  let cl := check_and_lock now ttl idem key
  match cl.1 with
  | some existing =>
    if existing.status = strOf "completed" then (cl.2, store, 0)
    else if existing.status = strOf "processing" then (cl.2, store, 0)
    else
      let pr := process_scheduled_message now publisher store mid channels
      (mark_completed now cl.2 key (mid, channels), pr.1, pr.2)
  | none =>
    let pr := process_scheduled_message now publisher store mid channels
    (mark_completed now cl.2 key (mid, channels), pr.1, pr.2)

end Worker

namespace Sched

/-- One row of `messages` as read and written by
`MessageScheduler.process_due_messages`. -/
structure SchedRow where
  id : Str
  status : Str
  scheduled_at : Nat
  updated_at : Nat
deriving DecidableEq, Repr

/-- One row of `channel_deliveries` as read by the dispatch query. -/
structure SchedDeliveryRow where
  message_id : Str
  channel : Str
  status : Str
deriving DecidableEq, Repr

/-- The database state visible to the scheduler. -/
structure SchedDB where
  messages : List SchedRow
  channel_deliveries : List SchedDeliveryRow
deriving DecidableEq, Repr

/-- A SQLAlchemy session: the durable committed state and the pending
transaction state.  `execute` works on `pending`; `commit` makes
`pending` durable; `rollback` resets `pending` to `committed`. -/
structure Session where
  committed : SchedDB
  pending : SchedDB
deriving DecidableEq, Repr

/-- `commit()`. -/
def Session.commit (s : Session) : Session :=
  { committed := s.pending, pending := s.pending }

/-- `rollback()`. -/
def Session.rollback (s : Session) : Session :=
  { s with pending := s.committed }

/-- The due-message query of `process_due_messages`: scheduled messages
whose `scheduled_at ≤ now`, inner-joined with their `scheduled`
deliveries, grouped per message with the aggregated channel list, limited
to `batch` rows. -/
def dueMessages (now batch : Nat) (db : SchedDB) : List (Str × List Str) :=
  (((db.messages.filter (fun m =>
      m.status == strOf "scheduled" && m.scheduled_at ≤ now)).map (fun m =>
        (m.id, (db.channel_deliveries.filter (fun d =>
          d.message_id == m.id && d.status == strOf "scheduled")).map
            (·.channel)))).filter (fun p => p.2 ≠ [])).take batch

/-- The claim UPDATE:
`SET status = 'processing' WHERE id = :id AND status = 'scheduled'`. -/
def claimUpdate (db : SchedDB) (mid : Str) (now : Nat) : SchedDB :=
  { db with messages := db.messages.map (fun m =>
      if m.id == mid && m.status == strOf "scheduled" then
        { m with status := strOf "processing", updated_at := now }
      else m) }

/-- `MessageScheduler.process_due_messages` from
`src/scheduler/src/scheduler.py`, parameterized over whether
`EventPublisher.publish_message_due` succeeds.  Per claimed message: the
UPDATE is executed and committed, then the event is published; on publish
failure the `except` branch calls `session.rollback()` — which follows
the commit and therefore restores nothing.  Returns the session, the
published events, and the dispatched count. -/
def process_due_messages (now batch : Nat)
    (publishOk : Str → List Str → Bool) (sess : Session) :
    Session × List (Str × List Str) × Nat :=
  let due := dueMessages now batch sess.pending
  if due = [] then (sess, [], 0)
  else
    due.foldl (fun acc item =>
      let sess1 := Session.commit
        { acc.1 with pending := claimUpdate acc.1.pending item.1 now }
      if publishOk item.1 item.2 then
        (sess1, acc.2.1 ++ [item], acc.2.2 + 1)
      else
        (Session.rollback sess1, acc.2.1, acc.2.2))
      (sess, [], 0)

end Sched

/-!  Theorems about the claims. -/

/-- Decidable equality for `Except`, so concrete validation results can
be checked by `decide`. -/
instance {e a : Type} [DecidableEq e] [DecidableEq a] :
    DecidableEq (Except e a) := fun x y =>
  match x, y with
  | .error u, .error v =>
    if h : u = v then isTrue (by rw [h])
    else isFalse (fun hx => h (by cases hx; rfl))
  | .error u, .ok w => isFalse (fun hx => Except.noConfusion hx)
  | .ok w, .error u => isFalse (fun hx => Except.noConfusion hx)
  | .ok w, .ok z =>
    if h : w = z then isTrue (by rw [h])
    else isFalse (fun hx => h (by cases hx; rfl))

/-- C8.  Amended: construction of `MessageContent` fails exactly when the
text is empty after trimming, the RAW text (not the trimmed text) exceeds
4096 characters, or a non-empty media URL lacks an `https://` or `s3://`
prefix; on success the stored fields equal the inputs verbatim. -/
theorem C8_validate_amended (text : Str) (media_url : Option Str) :
    (((pyStrip text).length = 0 ∨ 4096 < text.length ∨
      (Api.mediaTruthy media_url = true ∧
       pyStartsWith (strOf "https://") (media_url.getD []) = false ∧
       pyStartsWith (strOf "s3://") (media_url.getD []) = false)) →
      ∃ e, Api.MessageContent.validate text media_url = Except.error e) ∧
    (¬ ((pyStrip text).length = 0 ∨ 4096 < text.length ∨
      (Api.mediaTruthy media_url = true ∧
       pyStartsWith (strOf "https://") (media_url.getD []) = false ∧
       pyStartsWith (strOf "s3://") (media_url.getD []) = false)) →
      Api.MessageContent.validate text media_url =
        Except.ok ⟨text, media_url⟩) := by
  have hempty : text = [] → (pyStrip text).length = 0 := by
    intro h; subst h; rfl
  constructor
  · intro h
    by_cases hA : (pyStrip text).length = 0
    · refine ⟨strOf "Message text cannot be empty", ?_⟩
      unfold Api.MessageContent.validate
      simp [hA]
    · have hne : ¬ text = [] := fun hx => hA (hempty hx)
      by_cases hB : 4096 < text.length
      · refine ⟨strOf "Message text cannot exceed 4096 characters", ?_⟩
        unfold Api.MessageContent.validate
        simp [hne, hA, hB]
      · rcases h with h | h | ⟨h1, h2, h3⟩
        · exact absurd h hA
        · exact absurd h hB
        · refine ⟨strOf "Media URL must be HTTPS or S3", ?_⟩
          unfold Api.MessageContent.validate
          simp [hne, hA, hB, h1, h2, h3]
  · intro h
    push_neg at h
    obtain ⟨hA, hB, hC⟩ := h
    have hne : ¬ text = [] := fun hx => hA (hempty hx)
    unfold Api.MessageContent.validate
    by_cases hM : Api.mediaTruthy media_url = true
    · have hcc := hC hM
      by_cases h2 : pyStartsWith (strOf "https://") (media_url.getD []) = false
      · have h3 := hcc h2
        simp [hne, hA, hB, hM, h2, h3]
      · simp only [Bool.not_eq_false] at h2
        simp [hne, hA, hB, hM, h2]
    · simp only [Bool.not_eq_true] at hM
      simp [hne, hA, hB, hM]

/-- C8 witness: a whitespace-only text is rejected, and a plain text with
an `https` media URL is accepted with the fields stored verbatim. -/
theorem C8_validate_witness :
    (∃ e, Api.MessageContent.validate (strOf "  ") none = Except.error e) ∧
    Api.MessageContent.validate (strOf "hi") (some (strOf "https://x/y")) =
      Except.ok ⟨strOf "hi", some (strOf "https://x/y")⟩ :=
  ⟨(C8_validate_amended (strOf "  ") none).1 (Or.inl (by decide)),
   (C8_validate_amended (strOf "hi") (some (strOf "https://x/y"))).2
     (by decide)⟩

/-- `dropWhile` eats a run of spaces preceding a letter. -/
theorem dropWhile_replicate_space_cons (n : Nat) :
    List.dropWhile pyIsSpace (List.replicate n ' ' ++ ['a']) = ['a'] := by
  induction n with
  | zero => decide
  | succ k ih =>
    simpa [List.replicate_succ, List.cons_append, List.dropWhile_cons,
      (by decide : pyIsSpace ' ' = true)] using ih

/-- Stripping `a` followed by `n` spaces yields `a`. -/
theorem pyStrip_a_spaces (n : Nat) :
    pyStrip ('a' :: List.replicate n ' ') = ['a'] := by
  unfold pyStrip
  have h1 : List.dropWhile pyIsSpace ('a' :: List.replicate n ' ') =
      'a' :: List.replicate n ' ' := by
    rw [List.dropWhile_cons]
    simp [(by decide : pyIsSpace 'a' = false)]
  rw [h1, List.reverse_cons, List.reverse_replicate,
    dropWhile_replicate_space_cons]
  rfl

/-- Validation of `a` followed by more than 4095 spaces hits the raw
length check. -/
theorem validate_a_spaces (n : Nat) (h : 4096 < n + 1) :
    Api.MessageContent.validate ('a' :: List.replicate n ' ') none =
      Except.error (strOf "Message text cannot exceed 4096 characters") := by
  have hstrip := pyStrip_a_spaces n
  have hlen : ('a' :: List.replicate n ' ').length = n + 1 := by simp
  unfold Api.MessageContent.validate
  simp [hstrip, hlen, h]

/-- C8 counterexample: a text of one `a` followed by 4096 spaces has one
character after trimming, so the claim ("fails … when the text exceeds
4096 characters after trimming") says construction succeeds — but the
code checks the raw length (4097) and rejects it. -/
theorem C8_counterexample :
    (pyStrip ('a' :: List.replicate 4096 ' ') = ['a'] ∧
      (pyStrip ('a' :: List.replicate 4096 ' ')).length ≤ 4096) ∧
    Api.MessageContent.validate ('a' :: List.replicate 4096 ' ') none =
      Except.error (strOf "Message text cannot exceed 4096 characters") :=
  ⟨⟨pyStrip_a_spaces 4096, by rw [pyStrip_a_spaces 4096]; decide⟩,
   validate_a_spaces 4096 (by omega)⟩

/-- C1.  `GetMessageService.execute` takes no caller identity and checks
no ownership: for a stored message owned by `alice`, the service returns
the full message view — including content and per-channel deliveries —
to any caller whatsoever (the HTTP handler passes no identity either),
contradicting the owner-scoping rule declared on its own inbound port
`GetMessageUseCase.execute(message_id, user_id)`. -/
theorem C1_get_message_no_owner_check :
    Api.GetMessageService.execute
      [{ id := 1, content := ⟨strOf "hi", none⟩,
         channels := [Api.ChannelType.email], scheduled_at := 0,
         status := Api.MessageStatus.scheduled, recipient_id := strOf "r1",
         user_id := strOf "alice", created_at := 0, updated_at := 0,
         deliveries := [{ channel := Api.ChannelType.email }] }] 1 =
      some { id := 1, content := strOf "hi", media_url := none,
             channels := [strOf "email"], scheduled_at := 0,
             status := strOf "scheduled", recipient_id := strOf "r1",
             created_at := 0, updated_at := 0,
             deliveries := [{ channel := strOf "email",
                              status := strOf "scheduled",
                              delivered_at := none, error := none }] } ∧
    strOf "alice" ≠ strOf "bob" := by
  decide

/-- C3 counterexample: a processing message with one delivered and one
still-pending (scheduled) delivery.  The claim says the aggregate status
must remain `Processing` while a delivery is non-terminal, but
`_update_overall_status` assigns `PartiallyDelivered`. -/
theorem C3_counterexample :
    (∃ d ∈ [{ channel := Api.ChannelType.email,
              status := Api.MessageStatus.delivered : Api.ChannelDelivery },
            { channel := Api.ChannelType.sms }],
        d.status ≠ Api.MessageStatus.delivered ∧
        d.status ≠ Api.MessageStatus.failed) ∧
    (Api.Message.update_overall_status
      { id := 1, content := ⟨strOf "hi", none⟩,
        channels := [Api.ChannelType.email, Api.ChannelType.sms],
        scheduled_at := 0, status := Api.MessageStatus.processing,
        recipient_id := strOf "r", user_id := strOf "u", created_at := 0,
        updated_at := 0,
        deliveries := [{ channel := Api.ChannelType.email,
                         status := Api.MessageStatus.delivered },
                       { channel := Api.ChannelType.sms }] } 5).status =
      Api.MessageStatus.partially_delivered := by
  decide

/-- C3.  Amended: after `_update_overall_status` on a processing message
with at least one delivery, the aggregate status is Delivered iff all
deliveries are Delivered, Failed iff all are Failed, PartiallyDelivered
iff at least one (but not all) is Delivered — even when other deliveries
are still pending — and the status remains Processing only when no
delivery is Delivered and not all are Failed. -/
theorem C3_status_derivation (m : Api.Message) (now : Nat)
    (hne : m.deliveries ≠ []) (hp : m.status = Api.MessageStatus.processing) :
    ((m.update_overall_status now).status = Api.MessageStatus.delivered ↔
      ∀ d ∈ m.deliveries, d.status = Api.MessageStatus.delivered) ∧
    ((m.update_overall_status now).status = Api.MessageStatus.failed ↔
      ∀ d ∈ m.deliveries, d.status = Api.MessageStatus.failed) ∧
    ((m.update_overall_status now).status = Api.MessageStatus.partially_delivered ↔
      ((∃ d ∈ m.deliveries, d.status = Api.MessageStatus.delivered) ∧
        ¬ ∀ d ∈ m.deliveries, d.status = Api.MessageStatus.delivered)) ∧
    ((m.update_overall_status now).status = Api.MessageStatus.processing ↔
      ((¬ ∃ d ∈ m.deliveries, d.status = Api.MessageStatus.delivered) ∧
        ¬ ∀ d ∈ m.deliveries, d.status = Api.MessageStatus.failed)) := by
  obtain ⟨d0, hd0⟩ := List.exists_mem_of_ne_nil _ hne
  have hall : ∀ (t : Api.MessageStatus),
      (((m.deliveries.map (fun d => d.status)).all (fun s => s == t)) = true) ↔
        ∀ d ∈ m.deliveries, d.status = t := by
    intro t
    simp [List.all_eq_true]
  have hany :
      (((m.deliveries.map (fun d => d.status)).any
          (fun s => s == Api.MessageStatus.delivered)) = true) ↔
        ∃ d ∈ m.deliveries, d.status = Api.MessageStatus.delivered := by
    simp [List.any_eq_true]
  by_cases hA : (m.deliveries.map (fun d => d.status)).all
      (fun s => s == Api.MessageStatus.delivered) = true
  · have hPA := (hall _).mp hA
    have hst : (m.update_overall_status now).status = Api.MessageStatus.delivered := by
      simp [Api.Message.update_overall_status, hA]
    refine ⟨by rw [hst]; exact ⟨fun _ => hPA, fun _ => rfl⟩, ?_, ?_, ?_⟩
    · simp only [hst]
      constructor
      · intro hx; exact absurd hx (by simp)
      · intro hPB; exact absurd ((hPB d0 hd0) ▸ hPA d0 hd0) (by simp)
    · simp only [hst]
      constructor
      · intro hx; exact absurd hx (by simp)
      · rintro ⟨-, hnot⟩; exact absurd hPA hnot
    · simp only [hst]
      constructor
      · intro hx; exact absurd hx (by simp)
      · rintro ⟨hnex, -⟩; exact absurd ⟨d0, hd0, hPA d0 hd0⟩ hnex
  · by_cases hB : (m.deliveries.map (fun d => d.status)).all
        (fun s => s == Api.MessageStatus.failed) = true
    · have hPB := (hall _).mp hB
      have hst : (m.update_overall_status now).status = Api.MessageStatus.failed := by
        simp [Api.Message.update_overall_status, hA, hB]
      have hnPA : ¬ ∀ d ∈ m.deliveries, d.status = Api.MessageStatus.delivered :=
        fun hx => hA ((hall _).mpr hx)
      have hnex : ¬ ∃ d ∈ m.deliveries, d.status = Api.MessageStatus.delivered := by
        rintro ⟨d, hd, hds⟩
        exact absurd (hds ▸ hPB d hd) (by simp)
      refine ⟨?_, by rw [hst]; exact ⟨fun _ => hPB, fun _ => rfl⟩, ?_, ?_⟩
      · simp only [hst]
        constructor
        · intro hx; exact absurd hx (by simp)
        · intro hx; exact absurd hx hnPA
      · simp only [hst]
        constructor
        · intro hx; exact absurd hx (by simp)
        · rintro ⟨hex, -⟩; exact absurd hex hnex
      · simp only [hst]
        constructor
        · intro hx; exact absurd hx (by simp)
        · rintro ⟨-, hnf⟩; exact absurd hPB hnf
    · by_cases hC : (m.deliveries.map (fun d => d.status)).any
          (fun s => s == Api.MessageStatus.delivered) = true
      · have hex := hany.mp hC
        have hst : (m.update_overall_status now).status =
            Api.MessageStatus.partially_delivered := by
          simp [Api.Message.update_overall_status, hA, hB, hC]
        have hnPA : ¬ ∀ d ∈ m.deliveries, d.status = Api.MessageStatus.delivered :=
          fun hx => hA ((hall _).mpr hx)
        have hnPB : ¬ ∀ d ∈ m.deliveries, d.status = Api.MessageStatus.failed :=
          fun hx => hB ((hall _).mpr hx)
        refine ⟨?_, ?_,
          by rw [hst]; exact ⟨fun _ => ⟨hex, hnPA⟩, fun _ => rfl⟩, ?_⟩
        · simp only [hst]
          constructor
          · intro hx; exact absurd hx (by simp)
          · intro hx; exact absurd hx hnPA
        · simp only [hst]
          constructor
          · intro hx; exact absurd hx (by simp)
          · intro hx; exact absurd hx hnPB
        · simp only [hst]
          constructor
          · intro hx; exact absurd hx (by simp)
          · rintro ⟨hnex, -⟩; exact absurd hex hnex
      · have hnex : ¬ ∃ d ∈ m.deliveries, d.status = Api.MessageStatus.delivered :=
          fun hx => hC (hany.mpr hx)
        have hnPA : ¬ ∀ d ∈ m.deliveries, d.status = Api.MessageStatus.delivered :=
          fun hx => hA ((hall _).mpr hx)
        have hnPB : ¬ ∀ d ∈ m.deliveries, d.status = Api.MessageStatus.failed :=
          fun hx => hB ((hall _).mpr hx)
        have hst : (m.update_overall_status now).status = m.status := by
          simp [Api.Message.update_overall_status, hA, hB, hC]
        rw [hst, hp]
        refine ⟨?_, ?_, ?_, ⟨fun _ => ⟨hnex, hnPB⟩, fun _ => rfl⟩⟩
        · constructor
          · intro hx; exact absurd hx (by simp)
          · intro hx; exact absurd hx hnPA
        · constructor
          · intro hx; exact absurd hx (by simp)
          · intro hx; exact absurd hx hnPB
        · constructor
          · intro hx; exact absurd hx (by simp)
          · rintro ⟨hex, -⟩; exact absurd hex hnex

/-- Concrete message used by the C3 witness: processing, one delivered
and one failed delivery. -/
def c3wMsg : Api.Message :=
  { id := 2, content := ⟨strOf "x", none⟩,
    channels := [Api.ChannelType.email, Api.ChannelType.sms],
    scheduled_at := 0, status := Api.MessageStatus.processing,
    recipient_id := strOf "r", user_id := strOf "u", created_at := 0,
    updated_at := 0,
    deliveries := [{ channel := Api.ChannelType.email,
                     status := Api.MessageStatus.delivered },
                   { channel := Api.ChannelType.sms,
                     status := Api.MessageStatus.failed }] }

/-- C3 witness: one delivered plus one failed delivery derive
`PartiallyDelivered`. -/
theorem C3_status_derivation_witness :
    (Api.Message.update_overall_status c3wMsg 7).status =
      Api.MessageStatus.partially_delivered :=
  ((C3_status_derivation c3wMsg 7 (by decide) rfl).2.2.1).mpr
    ⟨by decide, by decide⟩

/-- `markFirst` maps the first channel match through `f` (for a
channel-preserving `f`), as observed through `find?`. -/
theorem markFirst_find (ds : List Api.ChannelDelivery) (ch : Api.ChannelType)
    (f : Api.ChannelDelivery → Api.ChannelDelivery)
    (hf : ∀ d, (f d).channel = d.channel) (d0 : Api.ChannelDelivery)
    (hfind : ds.find? (fun d => d.channel == ch) = some d0) :
    (Api.markFirst ds ch f).find? (fun d => d.channel == ch) = some (f d0) := by
  induction ds with
  | nil => simp [List.find?] at hfind
  | cons d rest ih =>
    by_cases hd : d.channel = ch
    · have hdc : (d.channel == ch) = true := by simpa using hd
      have hd0 : d = d0 := by
        have hx := hfind
        simp [List.find?, hdc] at hx
        exact hx
      subst hd0
      simp [Api.markFirst, hd, List.find?, hf d, hdc]
    · have hdc : (d.channel == ch) = false := by simpa using hd
      have hrest : rest.find? (fun d => d.channel == ch) = some d0 := by
        simpa [List.find?, hdc] using hfind
      have hres := ih hrest
      simpa [Api.markFirst, hd, List.find?, hdc] using hres

/-- Per-index description of the `save` delivery overwrite loop. -/
theorem copyDeliveries_get (old : List Api.DeliveryRow)
    (new : List Api.ChannelDelivery) (i : Nat)
    (h1 : i < old.length) (h2 : i < new.length)
    (h3 : i < (Api.copyDeliveries old new).length) :
    (Api.copyDeliveries old new).get ⟨i, h3⟩ =
      { old.get ⟨i, h1⟩ with
        status := (new.get ⟨i, h2⟩).status.value
        delivered_at := (new.get ⟨i, h2⟩).delivered_at
        error := (new.get ⟨i, h2⟩).error } := by
  induction old generalizing new i with
  | nil => exact absurd h1 (by simp)
  | cons o os ih =>
    cases new with
    | nil => exact absurd h2 (by simp)
    | cons d ds =>
      cases i with
      | zero => rfl
      | succ k =>
        have hk1 : k < os.length := by simpa using h1
        have hk2 : k < ds.length := by simpa using h2
        have hk3 : k < (Api.copyDeliveries os ds).length := by
          simpa [Api.copyDeliveries] using h3
        simpa [Api.copyDeliveries] using ih ds k hk1 hk2 hk3

/-- C4 counterexample: a delivery already terminal (`Failed` with an
error) is overwritten by a later `mark_channel_delivered`: its status
becomes `Delivered` and `delivered_at` is set. -/
theorem C4_counterexample :
    (Api.Message.mark_channel_delivered
      { id := 3, content := ⟨strOf "x", none⟩,
        channels := [Api.ChannelType.email], scheduled_at := 0,
        status := Api.MessageStatus.processing, recipient_id := strOf "r",
        user_id := strOf "u", created_at := 0, updated_at := 0,
        deliveries := [{ channel := Api.ChannelType.email,
                         status := Api.MessageStatus.failed,
                         error := some (strOf "boom") }] }
      Api.ChannelType.email 9).deliveries =
      [{ channel := Api.ChannelType.email,
         status := Api.MessageStatus.delivered, delivered_at := some 9,
         error := some (strOf "boom") }] := by
  decide

/-- C4.  Amended: terminal deliveries are NOT protected — whatever the
current status of the first delivery for a channel, a later
`mark_channel_delivered` unconditionally sets it Delivered with a fresh
`delivered_at`, `mark_channel_failed` unconditionally sets it Failed
with the new error, and the repository `save` overwrites the stored
`status`, `delivered_at` and `error` of every aligned delivery row. -/
theorem C4_terminal_overwrite :
    (∀ (m : Api.Message) (ch : Api.ChannelType) (now : Nat) (err : Str)
        (d0 : Api.ChannelDelivery),
      m.deliveries.find? (fun d => d.channel == ch) = some d0 →
      ((m.mark_channel_delivered ch now).deliveries.find?
          (fun d => d.channel == ch) =
        some { d0 with status := Api.MessageStatus.delivered,
                       delivered_at := some now }) ∧
      ((m.mark_channel_failed ch err now).deliveries.find?
          (fun d => d.channel == ch) =
        some { d0 with status := Api.MessageStatus.failed,
                       error := some err })) ∧
    (∀ (existing : Api.MessageRow) (m : Api.Message) (i : Nat)
        (h1 : i < existing.deliveries.length) (h2 : i < m.deliveries.length)
        (h3 : i < (Api.PostgresMessageRepository.saveExisting existing
          m).deliveries.length),
      (Api.PostgresMessageRepository.saveExisting existing m).deliveries.get
          ⟨i, h3⟩ =
        { existing.deliveries.get ⟨i, h1⟩ with
          status := (m.deliveries.get ⟨i, h2⟩).status.value
          delivered_at := (m.deliveries.get ⟨i, h2⟩).delivered_at
          error := (m.deliveries.get ⟨i, h2⟩).error }) := by
  constructor
  · intro m ch now err d0 hfind
    have hdel : (m.mark_channel_delivered ch now).deliveries =
        Api.markFirst m.deliveries ch
          (fun d => { d with status := Api.MessageStatus.delivered,
                             delivered_at := some now }) := by
      simp [Api.Message.mark_channel_delivered, Api.Message.update_overall_status]
    have hfail : (m.mark_channel_failed ch err now).deliveries =
        Api.markFirst m.deliveries ch
          (fun d => { d with status := Api.MessageStatus.failed,
                             error := some err }) := by
      simp [Api.Message.mark_channel_failed, Api.Message.update_overall_status]
    constructor
    · rw [hdel]
      exact markFirst_find m.deliveries ch
        (fun d => { d with status := Api.MessageStatus.delivered,
                           delivered_at := some now })
        (fun d => rfl) d0 hfind
    · rw [hfail]
      exact markFirst_find m.deliveries ch
        (fun d => { d with status := Api.MessageStatus.failed,
                           error := some err })
        (fun d => rfl) d0 hfind
  · intro existing m i h1 h2 h3
    exact copyDeliveries_get existing.deliveries m.deliveries i h1 h2 h3

/-- C4 witness: on a concrete message whose only delivery is already
`Failed`, the overwrite equations of the amended claim hold at channel
`email` and index `0`. -/
theorem C4_terminal_overwrite_witness :
    ((Api.Message.mark_channel_delivered
        { id := 3, content := ⟨strOf "y", none⟩,
          channels := [Api.ChannelType.email], scheduled_at := 0,
          status := Api.MessageStatus.processing, recipient_id := strOf "r",
          user_id := strOf "u", created_at := 0, updated_at := 0,
          deliveries := [{ channel := Api.ChannelType.email,
                           status := Api.MessageStatus.failed,
                           error := some (strOf "late") }] }
        Api.ChannelType.email 11).deliveries.find?
        (fun d => d.channel == Api.ChannelType.email) =
      some { channel := Api.ChannelType.email,
             status := Api.MessageStatus.delivered,
             delivered_at := some 11, error := some (strOf "late") }) ∧
    ((Api.PostgresMessageRepository.saveExisting
        { id := 3, content_text := strOf "y", content_media_url := none,
          scheduled_at := 0, status := strOf "processing", updated_at := 0,
          deliveries := [{ channel := strOf "email",
                           status := strOf "failed",
                           delivered_at := none,
                           error := some (strOf "late") }] }
        { id := 3, content := ⟨strOf "y", none⟩,
          channels := [Api.ChannelType.email], scheduled_at := 0,
          status := Api.MessageStatus.processing, recipient_id := strOf "r",
          user_id := strOf "u", created_at := 0, updated_at := 0,
          deliveries := [{ channel := Api.ChannelType.email,
                           status := Api.MessageStatus.delivered,
                           delivered_at := some 12, error := none }] }).deliveries.get
        ⟨0, by decide⟩ =
      { channel := strOf "email", status := strOf "delivered",
        delivered_at := some 12, error := none }) := by
  constructor
  · have h := (C4_terminal_overwrite.1
      { id := 3, content := ⟨strOf "y", none⟩,
        channels := [Api.ChannelType.email], scheduled_at := 0,
        status := Api.MessageStatus.processing, recipient_id := strOf "r",
        user_id := strOf "u", created_at := 0, updated_at := 0,
        deliveries := [{ channel := Api.ChannelType.email,
                         status := Api.MessageStatus.failed,
                         error := some (strOf "late") }] }
      Api.ChannelType.email 11 (strOf "e")
      { channel := Api.ChannelType.email,
        status := Api.MessageStatus.failed,
        error := some (strOf "late") } (by decide)).1
    exact h
  · have h := C4_terminal_overwrite.2
      { id := 3, content_text := strOf "y", content_media_url := none,
        scheduled_at := 0, status := strOf "processing", updated_at := 0,
        deliveries := [{ channel := strOf "email",
                         status := strOf "failed",
                         delivered_at := none,
                         error := some (strOf "late") }] }
      { id := 3, content := ⟨strOf "y", none⟩,
        channels := [Api.ChannelType.email], scheduled_at := 0,
        status := Api.MessageStatus.processing, recipient_id := strOf "r",
        user_id := strOf "u", created_at := 0, updated_at := 0,
        deliveries := [{ channel := Api.ChannelType.email,
                         status := Api.MessageStatus.delivered,
                         delivered_at := some 12, error := none }] }
      0 (by decide) (by decide) (by decide)
    simpa using h

/-- A blocked input-filter verdict is never `is_safe`, in either strict
mode. -/
theorem filter_input_blocked_not_safe (strict : Bool) (c : Str)
    (h : (Worker.filter_input strict c).risk_level = Worker.ContentRisk.blocked) :
    (Worker.filter_input strict c).is_safe = false := by
  simp only [Worker.filter_input] at h ⊢
  rw [Worker.isSafeFor, h]
  cases strict <;> rfl

/-- C6.  When the input filter reports `Blocked`, `AgentPublisher.publish`
short-circuits: it returns empty per-channel results, a
`Content blocked: …` summary carrying the filter's reason, and blocked
metrics, and performs no gateway call — the result does not depend on
the agent at all, which is therefore never consulted. -/
theorem C6_blocked_short_circuit (strict : Bool)
    (agent : Str → Worker.AgentRun) (request : Worker.PublishRequest)
    (h : (Worker.filter_input strict request.content).risk_level =
      Worker.ContentRisk.blocked) :
    Worker.AgentPublisher.publish strict agent request =
      ({ channel_results := []
         summary := some (strOf "Content blocked: " ++
           ((Worker.filter_input strict request.content).reason.getD
             (strOf "None")))
         metrics := some { blocked := true
                           risk_level := some (Worker.ContentRisk.value
                             (Worker.filter_input strict
                               request.content).risk_level) } },
       ([] : List Worker.ChannelType)) := by
  have hs := filter_input_blocked_not_safe strict request.content h
  unfold Worker.AgentPublisher.publish
  simp [hs]

/-- An agent that would post to Facebook if it were ever invoked. -/
def c6wAgent : Str → Worker.AgentRun := fun _ =>
  { summary := strOf "posted"
    tool_usage := [(Worker.ChannelType.facebook, { success := true })]
    gateway_calls := [Worker.ChannelType.facebook] }

/-- C6 witness: the prompt-injection content `jailbreak` is blocked and
the publisher returns the blocked result with no gateway calls, even
though the supplied agent would have called the Facebook gateway. -/
theorem C6_blocked_short_circuit_witness :
    Worker.AgentPublisher.publish true c6wAgent
      { content := strOf "jailbreak",
        channels := [Worker.ChannelType.facebook] } =
      ({ channel_results := []
         summary := some (strOf "Content blocked: " ++
           ((Worker.filter_input true (strOf "jailbreak")).reason.getD
             (strOf "None")))
         metrics := some { blocked := true
                           risk_level := some (Worker.ContentRisk.value
                             (Worker.filter_input true
                               (strOf "jailbreak")).risk_level) } },
       ([] : List Worker.ChannelType)) :=
  C6_blocked_short_circuit true c6wAgent
    { content := strOf "jailbreak", channels := [Worker.ChannelType.facebook] }
    (by decide)

/-- Invariants of the URL loop in `filter_input`: violations are only
appended, a `High` risk persists, a malicious URL forces `High` with a
`malicious_url` violation (starting from `Safe` or `High`), and with no
malicious URL the accumulator is untouched. -/
theorem urlFold_inv (urls : List Str) (r : Worker.ContentRisk)
    (v : List Worker.ViolationType) :
    (∀ x ∈ v, x ∈ (urls.foldl (fun rv url =>
        if Worker.is_malicious_url url then
          (Worker.maxRisk rv.1 .high, rv.2 ++ [.malicious_url])
        else rv) (r, v)).2) ∧
    (r = Worker.ContentRisk.high → (urls.foldl (fun rv url =>
        if Worker.is_malicious_url url then
          (Worker.maxRisk rv.1 .high, rv.2 ++ [.malicious_url])
        else rv) (r, v)).1 = Worker.ContentRisk.high) ∧
    ((r = Worker.ContentRisk.safe ∨ r = Worker.ContentRisk.high) →
      (∃ u ∈ urls, Worker.is_malicious_url u = true) →
      (urls.foldl (fun rv url =>
        if Worker.is_malicious_url url then
          (Worker.maxRisk rv.1 .high, rv.2 ++ [.malicious_url])
        else rv) (r, v)).1 = Worker.ContentRisk.high ∧
      Worker.ViolationType.malicious_url ∈ (urls.foldl (fun rv url =>
        if Worker.is_malicious_url url then
          (Worker.maxRisk rv.1 .high, rv.2 ++ [.malicious_url])
        else rv) (r, v)).2) ∧
    ((∀ u ∈ urls, Worker.is_malicious_url u = false) →
      (urls.foldl (fun rv url =>
        if Worker.is_malicious_url url then
          (Worker.maxRisk rv.1 .high, rv.2 ++ [.malicious_url])
        else rv) (r, v)) = (r, v)) := by
  induction urls generalizing r v with
  | nil =>
    refine ⟨fun x hx => hx, fun hr => by simp [hr], ?_, fun _ => rfl⟩
    rintro - ⟨u, hu, -⟩
    exact absurd hu (by simp)
  | cons u us ih =>
    by_cases hm : Worker.is_malicious_url u = true
    · have hstep : ∀ (a : Worker.ContentRisk) (w : List Worker.ViolationType),
          ((u :: us).foldl (fun rv url =>
            if Worker.is_malicious_url url then
              (Worker.maxRisk rv.1 .high, rv.2 ++ [.malicious_url])
            else rv) (a, w)) =
          (us.foldl (fun rv url =>
            if Worker.is_malicious_url url then
              (Worker.maxRisk rv.1 .high, rv.2 ++ [.malicious_url])
            else rv) (Worker.maxRisk a .high, w ++ [.malicious_url])) := by
        intro a w
        simp [List.foldl_cons, hm]
      refine ⟨?_, ?_, ?_, ?_⟩
      · intro x hx
        rw [hstep]
        exact (ih (Worker.maxRisk r .high) (v ++ [.malicious_url])).1 x
          (by simp [hx])
      · intro hr
        rw [hstep]
        have : Worker.maxRisk r Worker.ContentRisk.high =
            Worker.ContentRisk.high := by rw [hr]; rfl
        rw [this]
        exact (ih .high (v ++ [.malicious_url])).2.1 rfl
      · intro hr _
        rw [hstep]
        have hmax : Worker.maxRisk r Worker.ContentRisk.high =
            Worker.ContentRisk.high := by
          rcases hr with hr | hr <;> rw [hr] <;> rfl
        rw [hmax]
        refine ⟨(ih .high (v ++ [.malicious_url])).2.1 rfl, ?_⟩
        exact (ih .high (v ++ [.malicious_url])).1 .malicious_url (by simp)
      · intro hall
        exact absurd (hall u (by simp)) (by simp [hm])
    · have hm0 : Worker.is_malicious_url u = false := by
        cases hmc : Worker.is_malicious_url u
        · rfl
        · exact absurd hmc hm
      have hstep : ∀ (a : Worker.ContentRisk) (w : List Worker.ViolationType),
          ((u :: us).foldl (fun rv url =>
            if Worker.is_malicious_url url then
              (Worker.maxRisk rv.1 .high, rv.2 ++ [.malicious_url])
            else rv) (a, w)) =
          (us.foldl (fun rv url =>
            if Worker.is_malicious_url url then
              (Worker.maxRisk rv.1 .high, rv.2 ++ [.malicious_url])
            else rv) (a, w)) := by
        intro a w
        simp [List.foldl_cons, hm0]
      refine ⟨?_, ?_, ?_, ?_⟩
      · intro x hx
        rw [hstep]
        exact (ih r v).1 x hx
      · intro hr
        rw [hstep]
        exact (ih r v).2.1 hr
      · rintro hr ⟨w, hw, hmal⟩
        rw [hstep]
        rcases (by simpa using hw : w = u ∨ w ∈ us) with rfl | hwus
        · exact absurd hmal (by simp [hm0])
        · exact (ih r v).2.2.1 hr ⟨w, hwus, hmal⟩
      · intro hall
        rw [hstep]
        exact (ih r v).2.2.2 (fun w hw => hall w (by simp [hw]))

/-- C9.  Amended: when no prompt-injection pattern matches, a URL whose
host matches the known-shortener list drives `filter_input` to exactly
`High` with a `malicious_url` violation; but a URL whose host is neither
allow-listed nor known-bad contributes nothing — with no other match the
result is `Safe`, not the `Low` the claim states. -/
theorem C9_url_risk (strict : Bool) (c : Str)
    (hinj : Worker.promptInjectionPatterns.any
      (fun p => Worker.patSearch p (pyLower c)) = false) :
    ((∃ u ∈ Worker.findUrls c, Worker.is_malicious_url u = true) →
      (Worker.filter_input strict c).risk_level = Worker.ContentRisk.high ∧
      Worker.ViolationType.malicious_url ∈
        (Worker.filter_input strict c).violations) ∧
    ((∀ u ∈ Worker.findUrls c, Worker.is_malicious_url u = false) →
      Worker.offTopicPatterns.any
        (fun p => Worker.patSearch p (pyLower c)) = false →
      (Worker.filter_input strict c).risk_level = Worker.ContentRisk.safe) := by
  have hrl : (Worker.filter_input strict c).risk_level =
      (Worker.filterInputCore c).1 := rfl
  have hvl : (Worker.filter_input strict c).violations =
      (Worker.filterInputCore c).2 := rfl
  constructor
  · intro hex
    obtain ⟨h1, h2⟩ := (urlFold_inv (Worker.findUrls c)
      Worker.ContentRisk.safe []).2.2.1 (Or.inl rfl) hex
    have hcore : Worker.filterInputCore c =
        (Worker.findUrls c).foldl (fun rv url =>
          if Worker.is_malicious_url url then
            (Worker.maxRisk rv.1 .high, rv.2 ++ [.malicious_url])
          else rv) (Worker.ContentRisk.safe, []) := by
      simp only [Worker.filterInputCore, hinj]
      simp [h1]
    rw [hrl, hvl, hcore]
    exact ⟨h1, h2⟩
  · intro hnone hoff
    have hfold := (urlFold_inv (Worker.findUrls c)
      Worker.ContentRisk.safe []).2.2.2 hnone
    have hcore : Worker.filterInputCore c =
        (Worker.ContentRisk.safe, ([] : List Worker.ViolationType)) := by
      simp only [Worker.filterInputCore, hinj]
      simp [hfold, hoff]
    rw [hrl, hcore]

/-- C9 witness: a shortener URL yields `High` with a `malicious_url`
violation; an unknown-host URL yields `Safe`. -/
theorem C9_url_risk_witness :
    ((Worker.filter_input true (strOf "see https://bit.ly/abc")).risk_level =
        Worker.ContentRisk.high ∧
      Worker.ViolationType.malicious_url ∈
        (Worker.filter_input true (strOf "see https://bit.ly/abc")).violations) ∧
    (Worker.filter_input true
        (strOf "check https://example.org")).risk_level =
      Worker.ContentRisk.safe :=
  ⟨(C9_url_risk true (strOf "see https://bit.ly/abc") (by decide)).1
      (by decide),
   (C9_url_risk true (strOf "check https://example.org") (by decide)).2
      (by decide) (by decide)⟩

/-- C9 counterexample: `https://example.org` has a host that is neither
in the allow-list nor known-bad, so the claim says `filter_input`
reports `Low` — but the code leaves the risk at `Safe` (the
unknown-domain branch of `_is_malicious_url` returns `False`, adding no
violation). -/
theorem C9_counterexample :
    Worker.findUrls (strOf "check https://example.org") =
      [strOf "https://example.org"] ∧
    Worker.shortenerMatch (strOf "https://example.org") = false ∧
    Worker.isAllowedDomain
      (Worker.urlDomain (strOf "https://example.org")) = false ∧
    (Worker.filter_input true
      (strOf "check https://example.org")).risk_level =
      Worker.ContentRisk.safe ∧
    (Worker.filter_input true
      (strOf "check https://example.org")).risk_level ≠
      Worker.ContentRisk.low := by
  decide

/-- C10.  When every requested channel name fails to parse as a
`ChannelType`, `MessageDeliveryService.deliver` silently returns the
`No valid channels` result — empty per-channel results, no error raised,
and the publisher never invoked. -/
theorem C10_all_invalid_channels
    (publisher : Worker.PublishRequest →
      Worker.PublishResult × List Worker.ChannelType)
    (content : Str) (channels : List Str) (media_url : Option Str)
    (metadata : List (Str × Str))
    (h : ∀ ch ∈ channels, Worker.ChannelType.fromStr (pyLower ch) = none) :
    Worker.MessageDeliveryService.deliver publisher content channels
      media_url metadata =
      ({ channel_results := [], summary := some (strOf "No valid channels"),
         metrics := none }, [], 0) := by
  have hnil : channels.filterMap
      (fun ch => Worker.ChannelType.fromStr (pyLower ch)) = [] :=
    List.filterMap_eq_nil_iff.mpr h
  unfold Worker.MessageDeliveryService.deliver
  simp [hnil]

/-- C10 witness: two unknown channel names produce the
`No valid channels` result with zero publisher invocations, for a
publisher that would otherwise succeed. -/
theorem C10_all_invalid_channels_witness :
    Worker.MessageDeliveryService.deliver
      (fun _ => ({ channel_results :=
          [(Worker.ChannelType.email, { success := true })] },
        [Worker.ChannelType.email]))
      (strOf "hello") [strOf "pigeon", strOf "fax"] none [] =
      ({ channel_results := [], summary := some (strOf "No valid channels"),
         metrics := none }, [], 0) :=
  C10_all_invalid_channels _ (strOf "hello") [strOf "pigeon", strOf "fax"]
    none [] (by decide)

/-- `find?` by key is unchanged by a filter that keeps every entry
carrying that key. -/
theorem find_filter_eq {β : Type} (l : List (Str × β)) (k : Str)
    (q : Str × β → Bool) (h : ∀ p ∈ l, p.1 = k → q p = true) :
    (l.filter q).find? (fun p => p.1 == k) = l.find? (fun p => p.1 == k) := by
  induction l with
  | nil => rfl
  | cons a t ih =>
    have ht : ∀ p ∈ t, p.1 = k → q p = true := fun p hp => h p (by simp [hp])
    by_cases hk : a.1 = k
    · have hq : q a = true := h a (by simp) hk
      have hbeq : (a.1 == k) = true := by simpa using hk
      simp [List.filter_cons, hq, List.find?, hbeq]
    · have hbeq : (a.1 == k) = false := by simpa using hk
      cases hq : q a with
      | true => simp [List.filter_cons, hq, List.find?, hbeq, ih ht]
      | false => simp [List.filter_cons, hq, List.find?, hbeq, ih ht]

/-- `_cleanup_expired` does not disturb the cache entry of a key whose
expiry has not passed. -/
theorem cleanup_lookup (now : Nat) (st : Worker.IdemState) (key : Str)
    (hexp : ∀ p ∈ st.expires, p.1 = key → ¬ p.2 < now) :
    Worker.lookupA (Worker.cleanupExpired now st).cache key =
      Worker.lookupA st.cache key := by
  have hnc : ((st.expires.filter (fun p => p.2 < now)).map (·.1)).any
      (fun k0 => k0 == key) = false := by
    cases hc : ((st.expires.filter (fun p => p.2 < now)).map (·.1)).any
        (fun k0 => k0 == key) with
    | false => rfl
    | true =>
      exfalso
      obtain ⟨k0, hk0, hbeq⟩ := List.any_eq_true.mp hc
      obtain ⟨p, hp, hpk⟩ := List.mem_map.mp hk0
      obtain ⟨hpmem, hplt⟩ := List.mem_filter.mp hp
      have hkey : p.1 = key := by
        rw [← hpk] at hbeq
        simpa using hbeq
      exact hexp p hpmem hkey (by simpa using hplt)
  unfold Worker.cleanupExpired Worker.lookupA
  simp only []
  congr 1
  apply find_filter_eq
  intro p hp hpk
  rw [hpk, hnc]
  rfl

/-- C2.  A replayed `message.scheduled` event whose idempotency key holds
an unexpired `Completed` record is skipped: the handler returns after the
`check_and_lock` cleanup with the store untouched (so the terminal
message status is unchanged), zero publisher invocations (hence zero
channel-adapter calls), and the completed record still in place. -/
theorem C2_duplicate_event_skipped (now ttl : Nat)
    (publisher : Worker.PublishRequest →
      Worker.PublishResult × List Worker.ChannelType)
    (idem : Worker.IdemState) (store : Worker.WStore) (mid : Str)
    (channels : List Str) (rec : Worker.IdempotencyRecord)
    (hrec : Worker.lookupA idem.cache (Worker.generate_key mid channels) =
      some rec)
    (hcompleted : rec.status = strOf "completed")
    (hexp : ∀ p ∈ idem.expires,
      p.1 = Worker.generate_key mid channels → ¬ p.2 < now) :
    Worker.handle_scheduled_message now ttl publisher idem store mid channels =
      (Worker.cleanupExpired now idem, store, 0) ∧
    Worker.lookupA (Worker.cleanupExpired now idem).cache
      (Worker.generate_key mid channels) = some rec := by
  have hlk : Worker.lookupA (Worker.cleanupExpired now idem).cache
      (Worker.generate_key mid channels) = some rec := by
    rw [cleanup_lookup now idem _ hexp]
    exact hrec
  refine ⟨?_, hlk⟩
  unfold Worker.handle_scheduled_message Worker.check_and_lock
  simp [hlk, hcompleted]

/-- The completed record used by the C2 witness. -/
def c2wRec : Worker.IdempotencyRecord :=
  { key := Worker.generate_key (strOf "m1") [strOf "email"]
    status := strOf "completed", created_at := 10, completed_at := some 20
    result := some (strOf "m1", [strOf "email"]), error := none }

/-- The idempotency state used by the C2 witness. -/
def c2wIdem : Worker.IdemState :=
  { cache := [(Worker.generate_key (strOf "m1") [strOf "email"], c2wRec)]
    expires := [(Worker.generate_key (strOf "m1") [strOf "email"], 86410)] }

/-- The store used by the C2 witness: the message already delivered. -/
def c2wStore : Worker.WStore :=
  { messages := [{ id := strOf "m1", content_text := strOf "hi",
                   content_media_url := none, recipient_id := strOf "r",
                   metadata := [], status := strOf "delivered",
                   updated_at := 20 }]
    channel_deliveries := [{ message_id := strOf "m1",
                             channel := strOf "email",
                             status := strOf "delivered",
                             delivered_at := some 20, external_id := none,
                             error := none }] }

/-- C2 witness: replaying the event at time 50 with the completed record
in place leaves the store as-is, invokes no publisher, and keeps the
record. -/
theorem C2_duplicate_event_skipped_witness :
    Worker.handle_scheduled_message 50 86400
      (fun _ => ({ channel_results := [] }, [Worker.ChannelType.email]))
      c2wIdem c2wStore (strOf "m1") [strOf "email"] =
      (Worker.cleanupExpired 50 c2wIdem, c2wStore, 0) ∧
    Worker.lookupA (Worker.cleanupExpired 50 c2wIdem).cache
      (Worker.generate_key (strOf "m1") [strOf "email"]) = some c2wRec :=
  C2_duplicate_event_skipped 50 86400
    (fun _ => ({ channel_results := [] }, [Worker.ChannelType.email]))
    c2wIdem c2wStore (strOf "m1") [strOf "email"] c2wRec
    (by decide) (by decide) (by decide)

/-- Looking up a key just assigned returns the assigned value. -/
theorem lookupA_setA {β : Type} (l : List (Str × β)) (k : Str) (v : β) :
    Worker.lookupA (Worker.setA l k v) k = some v := by
  induction l with
  | nil => simp [Worker.setA, Worker.lookupA, List.find?]
  | cons a t ih =>
    by_cases hk : a.1 = k
    · have hbeq : (a.1 == k) = true := by simpa using hk
      simp [Worker.setA, hbeq, Worker.lookupA, List.find?]
    · have hbeq : (a.1 == k) = false := by simpa using hk
      simp only [Worker.setA, hbeq]
      simp only [Worker.lookupA, List.find?] at ih ⊢
      simp [hbeq, ih]

/-- When `check_and_lock` acquires the lock (returns `None`), the
resulting cache holds a fresh `processing` record for the key. -/
theorem check_and_lock_none (now ttl : Nat) (st : Worker.IdemState)
    (key : Str) (h : (Worker.check_and_lock now ttl st key).1 = none) :
    Worker.lookupA (Worker.check_and_lock now ttl st key).2.cache key =
      some { key := key, status := strOf "processing", created_at := now,
             completed_at := none, result := none, error := none } := by
  unfold Worker.check_and_lock at h ⊢
  cases hl : Worker.lookupA (Worker.cleanupExpired now st).cache key with
  | none => simp [hl, Worker.lockFor, lookupA_setA]
  | some ex =>
    simp only [hl] at h ⊢
    by_cases h1 : ex.status = strOf "completed"
    · simp [h1] at h
    · by_cases h2 : (decide (ex.status = strOf "processing") &&
          !(decide (now - ex.created_at > 300))) = true
      · simp [h1, h2] at h
      · simp only [Bool.not_eq_true] at h2
        simp [h1, h2, Worker.lockFor, lookupA_setA]

/-- After `mark_completed` on a key present in the cache, the record's
status is `completed`. -/
theorem mark_completed_lookup (now : Nat) (st : Worker.IdemState)
    (key : Str) (result : Str × List Str) (rec : Worker.IdempotencyRecord)
    (h : Worker.lookupA st.cache key = some rec) :
    Worker.lookupA (Worker.mark_completed now st key result).cache key =
      some { rec with status := strOf "completed", completed_at := some now,
                      result := some result, error := none } := by
  unfold Worker.mark_completed
  rw [h]
  simp [lookupA_setA]

/-- C7.  Amended: when the message id is absent from the store, the
processor logs and returns normally (it raises nothing), so the consumer
reaches `mark_completed`: the event's idempotency record ends up
`Completed` — not `Failed` — while the store is untouched and no
publisher call is made. -/
theorem C7_missing_message_marks_completed (now ttl : Nat)
    (publisher : Worker.PublishRequest →
      Worker.PublishResult × List Worker.ChannelType)
    (idem : Worker.IdemState) (store : Worker.WStore) (mid : Str)
    (channels : List Str)
    (hnew : (Worker.check_and_lock now ttl idem
      (Worker.generate_key mid channels)).1 = none)
    (hmissing : store.messages.find? (fun r => r.id == mid) = none) :
    (Worker.handle_scheduled_message now ttl publisher idem store mid
      channels).2.1 = store ∧
    (Worker.handle_scheduled_message now ttl publisher idem store mid
      channels).2.2 = 0 ∧
    (Worker.lookupA (Worker.handle_scheduled_message now ttl publisher idem
        store mid channels).1.cache
      (Worker.generate_key mid channels)).map (·.status) =
      some (strOf "completed") := by
  have hproc : Worker.process_scheduled_message now publisher store mid
      channels = (store, 0) := by
    unfold Worker.process_scheduled_message
    rw [hmissing]
  have hlock := check_and_lock_none now ttl idem
    (Worker.generate_key mid channels) hnew
  have hmc := mark_completed_lookup now
    (Worker.check_and_lock now ttl idem (Worker.generate_key mid channels)).2
    (Worker.generate_key mid channels) (mid, channels) _ hlock
  unfold Worker.handle_scheduled_message
  simp only [hnew, hproc, hmc]
  simp [hmc]

/-- C7 witness: with a fresh idempotency state and an empty store, the
record for the event ends `completed`, nothing is written, nothing is
published. -/
theorem C7_missing_message_marks_completed_witness :
    (Worker.handle_scheduled_message 10 86400
      (fun _ => ({ channel_results := [] }, []))
      { cache := [], expires := [] }
      { messages := [], channel_deliveries := [] }
      (strOf "m1") [strOf "email"]).2.1 =
      { messages := [], channel_deliveries := [] } ∧
    (Worker.handle_scheduled_message 10 86400
      (fun _ => ({ channel_results := [] }, []))
      { cache := [], expires := [] }
      { messages := [], channel_deliveries := [] }
      (strOf "m1") [strOf "email"]).2.2 = 0 ∧
    (Worker.lookupA (Worker.handle_scheduled_message 10 86400
        (fun _ => ({ channel_results := [] }, []))
        { cache := [], expires := [] }
        { messages := [], channel_deliveries := [] }
        (strOf "m1") [strOf "email"]).1.cache
      (Worker.generate_key (strOf "m1") [strOf "email"])).map (·.status) =
      some (strOf "completed") :=
  C7_missing_message_marks_completed 10 86400
    (fun _ => ({ channel_results := [] }, []))
    { cache := [], expires := [] }
    { messages := [], channel_deliveries := [] }
    (strOf "m1") [strOf "email"] (by decide) (by decide)

/-- C7 counterexample: for the event of an unknown message id, the claim
says the idempotency record is marked `Failed("not found")` — but the
processor returns normally and the consumer marks the record
`Completed`. -/
theorem C7_counterexample :
    (Worker.lookupA (Worker.handle_scheduled_message 10 86400
        (fun _ => ({ channel_results := [] }, []))
        { cache := [], expires := [] }
        { messages := [], channel_deliveries := [] }
        (strOf "m2") [strOf "sms"]).1.cache
      (Worker.generate_key (strOf "m2") [strOf "sms"])).map (·.status) =
      some (strOf "completed") ∧
    (Worker.lookupA (Worker.handle_scheduled_message 10 86400
        (fun _ => ({ channel_results := [] }, []))
        { cache := [], expires := [] }
        { messages := [], channel_deliveries := [] }
        (strOf "m2") [strOf "sms"]).1.cache
      (Worker.generate_key (strOf "m2") [strOf "sms"])).map (·.status) ≠
      some (strOf "failed") := by
  decide

/-- The one-message database of the C5 run. -/
def c5db : Sched.SchedDB :=
  { messages := [{ id := strOf "m1", status := strOf "scheduled",
                   scheduled_at := 10, updated_at := 0 }]
    channel_deliveries := [{ message_id := strOf "m1",
                             channel := strOf "email",
                             status := strOf "scheduled" }] }

/-- C5.  The dispatcher claims the due message and commits the claim
BEFORE publishing; when the publish then fails, the `except` branch's
rollback restores nothing (the claim transaction was already committed),
the event list stays empty, and — because the sweep query selects only
`status = 'scheduled'` rows — a later sweep with a healthy publisher
re-claims nothing: the message is permanently stuck in `processing` with
no published event. -/
theorem C5_claim_stuck_after_publish_failure :
    (Sched.process_due_messages 20 100 (fun _ _ => false)
        { committed := c5db, pending := c5db }).1.committed.messages =
      [{ id := strOf "m1", status := strOf "processing",
         scheduled_at := 10, updated_at := 20 }] ∧
    (Sched.process_due_messages 20 100 (fun _ _ => false)
        { committed := c5db, pending := c5db }).2.1 = [] ∧
    (Sched.process_due_messages 20 100 (fun _ _ => false)
        { committed := c5db, pending := c5db }).2.2 = 0 ∧
    Sched.process_due_messages 30 100 (fun _ _ => true)
        (Sched.process_due_messages 20 100 (fun _ _ => false)
          { committed := c5db, pending := c5db }).1 =
      ((Sched.process_due_messages 20 100 (fun _ _ => false)
          { committed := c5db, pending := c5db }).1, [], 0) := by
  decide
